import Mathlib

/-!
# Verification of `tensorrt_llm::runtime::ModelConfig`

A shallow embedding of `cpp/include/tensorrt_llm/runtime/modelConfig.h` and the
properties of its accessors.

Conventions of the embedding:

* `SizeType` (`std::int32_t`) is an integer together with the proof that it fits in 32
  bits, two's complement.  `+`, `-` and `*` wrap around modulo `2^32`; `/` and `%`
  truncate towards zero, as in C++, and fault on a zero divisor and on the one quotient
  that does not fit, `-2^31 / -1`.
* A member function that can throw or fault returns `Except Fault _`; a member function
  that cannot returns its value directly.
* A setter returns the updated descriptor.
-/

namespace tensorrt_llm

/-! ## Machine integers -/

/-- Reduction of an integer to the 32-bit two's-complement value with the same low bits. -/
def wrapInt32 (x : Int) : Int :=
  (x + 2147483648) % 4294967296 - 2147483648

/-- The ways an evaluation can stop without a value. -/
inductive Fault where
  /-- A `TLLM_CHECK` whose condition is false: the configuration is invalid. -/
  | checkFailed
  /-- An integer division or remainder whose divisor is zero. -/
  | divisionByZero
  /-- An integer division or remainder whose quotient is not a 32-bit value:
  `-2^31 / -1`. -/
  | divisionOverflow
  deriving DecidableEq, Repr

namespace runtime

/-- Values of `SizeType`.  The alias is declared in `tensorrt_llm/runtime/common.h` as
`std::int32_t`: an integer in `[-2^31, 2^31 - 1]`. -/
structure SizeType where
  val : Int
  lo : -2147483648 ≤ val
  hi : val ≤ 2147483647
  deriving DecidableEq

namespace SizeType

/-- Conversion of an integer to `SizeType`, keeping the low 32 bits. -/
def ofInt (x : Int) : SizeType :=
  ⟨wrapInt32 x, by unfold wrapInt32; omega, by unfold wrapInt32; omega⟩

instance (n : Nat) : OfNat SizeType n := ⟨ofInt n⟩

/-- `a + b` on `SizeType`. -/
def add (a b : SizeType) : SizeType := ofInt (a.val + b.val)

/-- `a - b` on `SizeType`. -/
def sub (a b : SizeType) : SizeType := ofInt (a.val - b.val)

/-- `a * b` on `SizeType`. -/
def mul (a b : SizeType) : SizeType := ofInt (a.val * b.val)

instance : Add SizeType := ⟨add⟩
instance : Sub SizeType := ⟨sub⟩
instance : Mul SizeType := ⟨mul⟩

/-- `a / b` on `SizeType`: the quotient truncated towards zero.  It is undefined for a
zero divisor and for `-2^31 / -1`, whose quotient `2^31` is not a `SizeType` value. -/
def div (a b : SizeType) : Except Fault SizeType :=
  if b.val = 0 then .error .divisionByZero
  else if a.val = -2147483648 ∧ b.val = -1 then .error .divisionOverflow
  else .ok (ofInt (a.val.tdiv b.val))

/-- `a % b` on `SizeType`: the remainder of the truncated division, undefined where the
quotient `a / b` is. -/
def mod (a b : SizeType) : Except Fault SizeType :=
  if b.val = 0 then .error .divisionByZero
  else if a.val = -2147483648 ∧ b.val = -1 then .error .divisionOverflow
  else .ok (ofInt (a.val.tmod b.val))

end SizeType
end runtime

/-! ## Collaborators declared outside `modelConfig.h` -/

/-- Modelled from the spec: the `TLLM_CHECK` macro of `tensorrt_llm/common/assert.h`,
which is not part of the sources at hand.  A false condition raises the spec's
InvalidConfiguration failure; a true one lets evaluation continue. -/
def TLLM_CHECK (cond : Bool) : Except Fault Unit :=
  if cond then .ok () else .error .checkFailed

end tensorrt_llm

namespace nvinfer1

/-- Modelled from the spec: the element types of `nvinfer1::DataType`, an enumeration of
the external header `NvInferRuntime.h`.  The spec names the base element type (fp16,
`kHALF`, in its scenario), the 8-bit-int type `kINT8` and the 8-bit-float type `kFP8`. -/
inductive DataType where
  | kFLOAT
  | kHALF
  | kINT8
  | kINT32
  | kBOOL
  | kUINT8
  | kFP8
  | kBF16
  | kINT64
  deriving DecidableEq, Repr

end nvinfer1

namespace tensorrt_llm
namespace common

/-- Modelled from the spec: `common::QuantMode` of `tensorrt_llm/common/quantization.h`,
which is not part of the sources at hand.  The spec describes it as an externally-defined
bitset with one bit for the 8-bit-int key/value cache and one for the 8-bit-float
key/value cache. -/
structure QuantMode where
  value : Nat
  deriving DecidableEq, Repr

namespace QuantMode

/-- Modelled from the spec: the bit that marks an 8-bit-int key/value cache.  The spec
does not give its position; the properties below hold for any position, and the concrete
examples need only that it differs from the float-8 one. -/
def int8KvCacheBit : Nat := 6

/-- Modelled from the spec: the bit that marks an 8-bit-float key/value cache, with the
same remark on its position. -/
def fp8KvCacheBit : Nat := 7

/-- Modelled from the spec: `QuantMode::none()`, the bitset with no bit set. -/
def none : QuantMode := ⟨0⟩

/-- Modelled from the spec: `QuantMode::hasInt8KvCache()`. -/
def hasInt8KvCache (q : QuantMode) : Bool := q.value.testBit int8KvCacheBit

/-- Modelled from the spec: `QuantMode::hasFp8KvCache()`. -/
def hasFp8KvCache (q : QuantMode) : Bool := q.value.testBit fp8KvCacheBit

end QuantMode
end common
end tensorrt_llm

namespace tensorrt_llm
namespace runtime

open common

/-! ## The descriptor -/

/-- `ModelConfig::ModelVariant`. -/
inductive ModelVariant where
  | kGpt
  | kGlm
  | kMamba
  | kRecurrentGemma
  deriving DecidableEq, Repr

/-- `ModelConfig::MambaConfig`. -/
structure MambaConfig where
  dState : SizeType
  dConv : SizeType
  expand : SizeType
  deriving DecidableEq

/-- `ModelConfig::RnnConfig`. -/
structure RnnConfig where
  dConv : SizeType
  hiddenSize : SizeType
  deriving DecidableEq

/-- `ModelConfig::LayerType`. -/
inductive LayerType where
  | kATTENTION
  | kRECURRENT
  deriving DecidableEq, Repr

/-- The private members of `ModelConfig`, in declaration order.  `LoraModule` and
`MedusaModule` are the classes of `loraModule.h` and `medusaModule.h`; the descriptor
only stores and returns their values, so they are type parameters here. -/
structure ModelConfig (LoraModule MedusaModule : Type) where
  mVocabSize : SizeType
  mNbAttentionLayers : SizeType
  mNbSsmLayers : SizeType
  mNbHeads : SizeType
  mNbKvHeads : SizeType
  mHiddenSize : SizeType
  mSizePerHead : SizeType
  mDataType : nvinfer1.DataType
  mUseGptAttentionPlugin : Bool
  mUseMambaConv1dPlugin : Bool
  mInputPacked : Bool
  mPagedKvCache : Bool
  mPagedState : Bool
  mTokensPerBlock : SizeType
  mQuantMode : QuantMode
  mMaxBatchSize : SizeType
  mMaxBeamWidth : SizeType
  mMaxInputLen : SizeType
  mMaxSequenceLen : SizeType
  mMaxNumTokens : Option SizeType
  mComputeContextLogits : Bool
  mComputeGenerationLogits : Bool
  mModelVariant : ModelVariant
  mUseCustomAllReduce : Bool
  mMaxPromptEmbeddingTableSize : SizeType
  mMaxDraftLen : SizeType
  mUseContextFMHAForGeneration : Bool
  mPagedContextFMHA : Bool
  mUseXQA : Bool
  mUseLoraPlugin : Bool
  mLoraModules : List LoraModule
  mMlpHiddenSize : SizeType
  mMaxLoraRank : SizeType
  mMedusaModule : Option MedusaModule
  mMambaConfig : Option MambaConfig
  mUseCrossAttention : Bool
  mUsePositionEmbedding : Bool
  mUseTokenTypeEmbedding : Bool
  mFfnHiddenSize : SizeType
  mRnnConfig : Option RnnConfig
  mLayerTypes : List LayerType

/-- The contents of the two `SizeType` members that the constructor neither names in its
initialiser list nor gives a default member initialiser (`mMaxLoraRank`,
`mFfnHiddenSize`): whatever the storage held before construction. -/
structure Indeterminate where
  mMaxLoraRank : SizeType
  mFfnHiddenSize : SizeType

namespace ModelConfig

variable {LoraModule MedusaModule : Type}

/-- The constructor `ModelConfig::ModelConfig` (named `ctor`, since the type itself is
`ModelConfig`).  Members are initialised in declaration order, so `mSizePerHead` is
computed from the already initialised `mHiddenSize` and `mNbHeads`; the vectors start
empty and the optionals without a value. -/
def ctor (u : Indeterminate) (vocabSize nbAttentionLayers nbSsmLayers nbHeads
    hiddenSize : SizeType) (dtype : nvinfer1.DataType) :
    Except Fault (ModelConfig LoraModule MedusaModule) := do
  let sizePerHead ← SizeType.div hiddenSize nbHeads
  pure
    { mVocabSize := vocabSize
      mNbAttentionLayers := nbAttentionLayers
      mNbSsmLayers := nbSsmLayers
      mNbHeads := nbHeads
      mNbKvHeads := nbHeads
      mHiddenSize := hiddenSize
      mSizePerHead := sizePerHead
      mDataType := dtype
      mUseGptAttentionPlugin := false
      mUseMambaConv1dPlugin := false
      mInputPacked := false
      mPagedKvCache := false
      mPagedState := false
      mTokensPerBlock := 64
      mQuantMode := QuantMode.none
      mMaxBatchSize := 0
      mMaxBeamWidth := 0
      mMaxInputLen := 0
      mMaxSequenceLen := 0
      mMaxNumTokens := none
      mComputeContextLogits := false
      mComputeGenerationLogits := false
      mModelVariant := ModelVariant.kGpt
      mUseCustomAllReduce := false
      mMaxPromptEmbeddingTableSize := 0
      mMaxDraftLen := 0
      mUseContextFMHAForGeneration := false
      mPagedContextFMHA := false
      mUseXQA := false
      mUseLoraPlugin := false
      mLoraModules := []
      mMlpHiddenSize := 0
      mMaxLoraRank := u.mMaxLoraRank
      mMedusaModule := none
      mMambaConfig := none
      mUseCrossAttention := false
      mUsePositionEmbedding := true
      mUseTokenTypeEmbedding := false
      mFfnHiddenSize := u.mFfnHiddenSize
      mRnnConfig := none
      mLayerTypes := [] }

variable (c : ModelConfig LoraModule MedusaModule)

def getVocabSize : SizeType := c.mVocabSize

/-- `getVocabSizePadded(worldSize)`:
`(mVocabSize + worldSize - 1) / worldSize * worldSize`. -/
def getVocabSizePadded (worldSize : SizeType) : Except Fault SizeType := do
  let q ← SizeType.div (c.mVocabSize + worldSize - 1) worldSize
  pure (q * worldSize)

/-- `getNbAttentionLayers(pipelineParallelism)`; the C++ default argument is 1. -/
def getNbAttentionLayers (pipelineParallelism : SizeType) : Except Fault SizeType := do
  let r ← SizeType.mod c.mNbAttentionLayers pipelineParallelism
  TLLM_CHECK (r.val == 0)
  SizeType.div c.mNbAttentionLayers pipelineParallelism

/-- `getNbSsmLayers(pipelineParallelism)`; the C++ default argument is 1. -/
def getNbSsmLayers (pipelineParallelism : SizeType) : Except Fault SizeType := do
  let r ← SizeType.mod c.mNbSsmLayers pipelineParallelism
  TLLM_CHECK (r.val == 0)
  SizeType.div c.mNbSsmLayers pipelineParallelism

def getNbHeads : SizeType := c.mNbHeads

def getNbKvHeads : SizeType := c.mNbKvHeads

def setNbKvHeads (nbKvHeads : SizeType) : ModelConfig LoraModule MedusaModule :=
  { c with mNbKvHeads := nbKvHeads }

def getHiddenSize : SizeType := c.mHiddenSize

def getSizePerHead : SizeType := c.mSizePerHead

def setSizePerHead (sizePerHead : SizeType) : ModelConfig LoraModule MedusaModule :=
  { c with mSizePerHead := sizePerHead }

def getDataType : nvinfer1.DataType := c.mDataType

def useGptAttentionPlugin : Bool := c.mUseGptAttentionPlugin

/-- The setter overload `useGptAttentionPlugin(bool)`. -/
def useGptAttentionPluginSet (useGptAttentionPlugin : Bool) :
    ModelConfig LoraModule MedusaModule :=
  { c with mUseGptAttentionPlugin := useGptAttentionPlugin }

def useMambaConv1dPlugin : Bool := c.mUseMambaConv1dPlugin

/-- The setter overload `useMambaConv1dPlugin(bool)`. -/
def useMambaConv1dPluginSet (useMambaConv1dPlugin : Bool) :
    ModelConfig LoraModule MedusaModule :=
  { c with mUseMambaConv1dPlugin := useMambaConv1dPlugin }

def usePackedInput : Bool := c.mInputPacked

/-- The setter overload `usePackedInput(bool)`. -/
def usePackedInputSet (inputPacked : Bool) : ModelConfig LoraModule MedusaModule :=
  { c with mInputPacked := inputPacked }

def usePagedKvCache : Bool := c.mPagedKvCache

/-- The setter overload `usePagedKvCache(bool)`. -/
def usePagedKvCacheSet (pagedKvCache : Bool) : ModelConfig LoraModule MedusaModule :=
  { c with mPagedKvCache := pagedKvCache }

def usePagedState : Bool := c.mPagedState

/-- The setter overload `usePagedState(bool)`. -/
def usePagedStateSet (pagedState : Bool) : ModelConfig LoraModule MedusaModule :=
  { c with mPagedState := pagedState }

def getTokensPerBlock : SizeType := c.mTokensPerBlock

def setTokensPerBlock (TokensPerBlock : SizeType) : ModelConfig LoraModule MedusaModule :=
  { c with mTokensPerBlock := TokensPerBlock }

def getQuantMode : QuantMode := c.mQuantMode

def setQuantMode (QuantMode : QuantMode) : ModelConfig LoraModule MedusaModule :=
  { c with mQuantMode := QuantMode }

def isTransformerBased : Bool :=
  c.mModelVariant == ModelVariant.kGpt || c.mModelVariant == ModelVariant.kGlm
    || c.mModelVariant == ModelVariant.kRecurrentGemma

def isSsmBased : Bool :=
  c.mModelVariant == ModelVariant.kMamba || c.mModelVariant == ModelVariant.kRecurrentGemma

def supportsInflightBatching : Bool :=
  (c.isTransformerBased && c.mUseGptAttentionPlugin && c.mInputPacked && c.mPagedKvCache)
    || (c.isSsmBased && c.mUseMambaConv1dPlugin && c.mInputPacked && c.mPagedState)

def getMaxBatchSize : SizeType := c.mMaxBatchSize

def setMaxBatchSize (maxBatchSize : SizeType) : ModelConfig LoraModule MedusaModule :=
  { c with mMaxBatchSize := maxBatchSize }

def getMaxBeamWidth : SizeType := c.mMaxBeamWidth

def setMaxBeamWidth (maxBeamWidth : SizeType) : ModelConfig LoraModule MedusaModule :=
  { c with mMaxBeamWidth := maxBeamWidth }

def getMaxInputLen : SizeType := c.mMaxInputLen

def setMaxInputLen (maxInputLen : SizeType) : ModelConfig LoraModule MedusaModule :=
  { c with mMaxInputLen := maxInputLen }

def getMaxSequenceLen : SizeType := c.mMaxSequenceLen

def setMaxSequenceLen (maxSequenceLen : SizeType) : ModelConfig LoraModule MedusaModule :=
  { c with mMaxSequenceLen := maxSequenceLen }

def getMaxNumTokens : Option SizeType := c.mMaxNumTokens

def setMaxNumTokens (maxNumTokens : Option SizeType) : ModelConfig LoraModule MedusaModule :=
  { c with mMaxNumTokens := maxNumTokens }

def usePromptTuning : Bool := decide (0 < c.mMaxPromptEmbeddingTableSize.val)

def getMaxPromptEmbeddingTableSize : SizeType := c.mMaxPromptEmbeddingTableSize

def setMaxPromptEmbeddingTableSize (maxPromptEmbeddingTableSize : SizeType) :
    ModelConfig LoraModule MedusaModule :=
  { c with mMaxPromptEmbeddingTableSize := maxPromptEmbeddingTableSize }

def computeContextLogits : Bool := c.mComputeContextLogits

/-- The setter overload `computeContextLogits(bool)`. -/
def computeContextLogitsSet (computeContextLogits : Bool) :
    ModelConfig LoraModule MedusaModule :=
  { c with mComputeContextLogits := computeContextLogits }

def computeGenerationLogits : Bool := c.mComputeGenerationLogits

/-- The setter overload `computeGenerationLogits(bool)`. -/
def computeGenerationLogitsSet (computeGenerationLogits : Bool) :
    ModelConfig LoraModule MedusaModule :=
  { c with mComputeGenerationLogits := computeGenerationLogits }

def getModelVariant : ModelVariant := c.mModelVariant

def setModelVariant (modelVariant : ModelVariant) : ModelConfig LoraModule MedusaModule :=
  { c with mModelVariant := modelVariant }

def useCustomAllReduce : Bool := c.mUseCustomAllReduce

/-- The setter overload `useCustomAllReduce(bool)`. -/
def useCustomAllReduceSet (customAllReduce : Bool) : ModelConfig LoraModule MedusaModule :=
  { c with mUseCustomAllReduce := customAllReduce }

def setMaxDraftLen (maxDraftLen : SizeType) : ModelConfig LoraModule MedusaModule :=
  { c with mMaxDraftLen := maxDraftLen }

def getMaxDraftLen : SizeType := c.mMaxDraftLen

/-- `getMaxTokensPerStep()`: `mMaxDraftLen + 1`. -/
def getMaxTokensPerStep : SizeType := c.mMaxDraftLen + 1

def setUseContextFMHAForGeneration (useContextFMHAForGeneration : Bool) :
    ModelConfig LoraModule MedusaModule :=
  { c with mUseContextFMHAForGeneration := useContextFMHAForGeneration }

def getContextFMHAForGeneration : Bool := c.mUseContextFMHAForGeneration

def setPagedContextFMHA (pagedContextFMHA : Bool) : ModelConfig LoraModule MedusaModule :=
  { c with mPagedContextFMHA := pagedContextFMHA }

def getPagedContextFMHA : Bool := c.mPagedContextFMHA

/-- The setter overload `useXQA(bool)`. -/
def useXQASet (useXQA : Bool) : ModelConfig LoraModule MedusaModule :=
  { c with mUseXQA := useXQA }

def useXQA : Bool := c.mUseXQA

def useLoraPlugin : Bool := c.mUseLoraPlugin

/-- The setter overload `useLoraPlugin(bool)`. -/
def useLoraPluginSet (useLoraPlugin : Bool) : ModelConfig LoraModule MedusaModule :=
  { c with mUseLoraPlugin := useLoraPlugin }

def getLoraModules : List LoraModule := c.mLoraModules

def setLoraModules (loraModules : List LoraModule) : ModelConfig LoraModule MedusaModule :=
  { c with mLoraModules := loraModules }

def getMlpHiddenSize : SizeType := c.mMlpHiddenSize

def setMlpHiddenSize (mlpHiddenSize : SizeType) : ModelConfig LoraModule MedusaModule :=
  { c with mMlpHiddenSize := mlpHiddenSize }

def useCrossAttention : Bool := c.mUseCrossAttention

/-- The setter overload `useCrossAttention(bool)`. -/
def useCrossAttentionSet (newCrossAttention : Bool) : ModelConfig LoraModule MedusaModule :=
  { c with mUseCrossAttention := newCrossAttention }

def usePositionEmbedding : Bool := c.mUsePositionEmbedding

/-- The setter overload `usePositionEmbedding(bool)`. -/
def usePositionEmbeddingSet (newPositionEmbedding : Bool) :
    ModelConfig LoraModule MedusaModule :=
  { c with mUsePositionEmbedding := newPositionEmbedding }

def useTokenTypeEmbedding : Bool := c.mUseTokenTypeEmbedding

/-- The setter overload `useTokenTypeEmbedding(bool)`. -/
def useTokenTypeEmbeddingSet (newTokenTypeEmbedding : Bool) :
    ModelConfig LoraModule MedusaModule :=
  { c with mUseTokenTypeEmbedding := newTokenTypeEmbedding }

def getFfnHiddenSize : SizeType := c.mFfnHiddenSize

def setFfnHiddenSize (ffnHiddenSize : SizeType) : ModelConfig LoraModule MedusaModule :=
  { c with mFfnHiddenSize := ffnHiddenSize }

def getMaxLoraRank : SizeType := c.mMaxLoraRank

def setMaxLoraRank (maxLoraRank : SizeType) : ModelConfig LoraModule MedusaModule :=
  { c with mMaxLoraRank := maxLoraRank }

def useMedusa : Bool := c.mMedusaModule.isSome

def getMedusaModule : Option MedusaModule := c.mMedusaModule

def setMedusaModule (medusaModule : MedusaModule) : ModelConfig LoraModule MedusaModule :=
  { c with mMedusaModule := some medusaModule }

/-- `getKvDataType()`: the float-8 cache test comes first, then the int-8 one. -/
def getKvDataType : nvinfer1.DataType :=
  if c.getQuantMode.hasFp8KvCache then nvinfer1.DataType.kFP8
  else if c.getQuantMode.hasInt8KvCache then nvinfer1.DataType.kINT8
  else c.getDataType

def hasMambaConfig : Bool := c.mMambaConfig.isSome

def getMambaConfig : Option MambaConfig := c.mMambaConfig

def setMambaConfig (mambaConfig : MambaConfig) : ModelConfig LoraModule MedusaModule :=
  { c with mMambaConfig := some mambaConfig }

def hasRnnConfig : Bool := c.mRnnConfig.isSome

def getRnnConfig : Option RnnConfig := c.mRnnConfig

def setRnnConfig (rnnConfig : RnnConfig) : ModelConfig LoraModule MedusaModule :=
  { c with mRnnConfig := some rnnConfig }

def getLayerTypes : List LayerType := c.mLayerTypes

def setLayerTypes (layerTypes : List LayerType) : ModelConfig LoraModule MedusaModule :=
  { c with mLayerTypes := layerTypes }

end ModelConfig
end runtime
end tensorrt_llm

namespace tensorrt_llm
namespace runtime

/-! ## A concrete descriptor -/

/-- The descriptor that construction yields for `vocabSize = 50257`,
`nbAttentionLayers = 24`, `nbSsmLayers = 0`, `nbHeads = 16`, `hiddenSize = 2048` and
`dtype = kHALF`, when the two members left uninitialised happen to hold 0. -/
def scenarioConfig : ModelConfig Unit Unit where
  mVocabSize := 50257
  mNbAttentionLayers := 24
  mNbSsmLayers := 0
  mNbHeads := 16
  mNbKvHeads := 16
  mHiddenSize := 2048
  mSizePerHead := 128
  mDataType := nvinfer1.DataType.kHALF
  mUseGptAttentionPlugin := false
  mUseMambaConv1dPlugin := false
  mInputPacked := false
  mPagedKvCache := false
  mPagedState := false
  mTokensPerBlock := 64
  mQuantMode := common.QuantMode.none
  mMaxBatchSize := 0
  mMaxBeamWidth := 0
  mMaxInputLen := 0
  mMaxSequenceLen := 0
  mMaxNumTokens := none
  mComputeContextLogits := false
  mComputeGenerationLogits := false
  mModelVariant := ModelVariant.kGpt
  mUseCustomAllReduce := false
  mMaxPromptEmbeddingTableSize := 0
  mMaxDraftLen := 0
  mUseContextFMHAForGeneration := false
  mPagedContextFMHA := false
  mUseXQA := false
  mUseLoraPlugin := false
  mLoraModules := []
  mMlpHiddenSize := 0
  mMaxLoraRank := 0
  mMedusaModule := none
  mMambaConfig := none
  mUseCrossAttention := false
  mUsePositionEmbedding := true
  mUseTokenTypeEmbedding := false
  mFfnHiddenSize := 0
  mRnnConfig := none
  mLayerTypes := []

end runtime
end tensorrt_llm

namespace tensorrt_llm
namespace runtime

/-! ## Arithmetic of the embedding -/

theorem wrapInt32_of_fits {x : Int} (h1 : -2147483648 ≤ x) (h2 : x ≤ 2147483647) :
    wrapInt32 x = x := by
  unfold wrapInt32; omega

namespace SizeType

theorem val_inj {a b : SizeType} (h : a.val = b.val) : a = b := by
  cases a; cases b; simp_all

@[simp] theorem ofInt_val (x : Int) : (ofInt x).val = wrapInt32 x := rfl

@[simp] theorem ofInt_self (a : SizeType) : ofInt a.val = a :=
  val_inj (wrapInt32_of_fits a.lo a.hi)

theorem add_val (a b : SizeType) : (a + b).val = wrapInt32 (a.val + b.val) := rfl

@[simp] theorem one_val : (1 : SizeType).val = 1 := by decide

@[simp] theorem zero_val : (0 : SizeType).val = 0 := by decide

end SizeType

/-- Truncated division by a positive divisor keeps the sign and does not grow. -/
theorem tdiv_bounds {n p : Int} (hp : 1 ≤ p) :
    (0 ≤ n → 0 ≤ n.tdiv p ∧ n.tdiv p ≤ n) ∧ (n ≤ 0 → n ≤ n.tdiv p ∧ n.tdiv p ≤ 0) := by
  constructor
  · intro hn
    rw [Int.tdiv_eq_ediv hn (by omega)]
    exact ⟨Int.ediv_nonneg hn (by omega), Int.ediv_le_self p hn⟩
  · intro hn
    have h0 : 0 ≤ -n := by omega
    have h : (-n).tdiv p = -n.tdiv p := Int.neg_tdiv n p
    have h1 : (-n).tdiv p = (-n) / p := Int.tdiv_eq_ediv h0 (by omega)
    have h2 : 0 ≤ (-n) / p := Int.ediv_nonneg h0 (by omega)
    have h3 : (-n) / p ≤ -n := Int.ediv_le_self p h0
    omega

theorem tdiv_fits (n p : SizeType) (hp : 1 ≤ p.val) :
    wrapInt32 (n.val.tdiv p.val) = n.val.tdiv p.val := by
  have hn1 := n.lo
  have hn2 := n.hi
  have h := tdiv_bounds (n := n.val) hp
  apply wrapInt32_of_fits
  · rcases le_total 0 n.val with h0 | h0
    · have := (h.1 h0).1; omega
    · have := (h.2 h0).1; omega
  · rcases le_total 0 n.val with h0 | h0
    · have := (h.1 h0).2; omega
    · have := (h.2 h0).2; omega

/-- The remainder of a truncated division by a positive divisor is smaller than the
divisor in absolute value. -/
theorem tmod_fits (n p : SizeType) (hp : 1 ≤ p.val) :
    wrapInt32 (n.val.tmod p.val) = n.val.tmod p.val := by
  have hp2 := p.hi
  have h1 : n.val.tmod p.val < p.val := Int.tmod_lt_of_pos _ (by omega)
  have h2 : -p.val < n.val.tmod p.val := by
    have h3 : (-n.val).tmod p.val < p.val := Int.tmod_lt_of_pos _ (by omega)
    have h4 : (-n.val).tmod p.val = -(n.val.tmod p.val) := by
      rw [Int.tmod_def, Int.tmod_def, Int.neg_tdiv]; ring
    omega
  apply wrapInt32_of_fits <;> omega

/-- What a layer-count accessor computes, for any layer count `n` and a shard factor
`p ≥ 1`: the check, then the truncated quotient. -/
theorem layersPerShard_eval (n p : SizeType) (hp : 1 ≤ p.val) :
    (do let r ← SizeType.mod n p
        TLLM_CHECK (r.val == 0)
        SizeType.div n p)
      = if n.val.tmod p.val = 0 then Except.ok (SizeType.ofInt (n.val.tdiv p.val))
        else Except.error Fault.checkFailed := by
  have hp0 : p.val ≠ 0 := by omega
  have hp1 : ¬ (n.val = -2147483648 ∧ p.val = -1) := by omega
  simp only [SizeType.mod, SizeType.div, hp0, hp1, if_false, bind, Except.bind,
    SizeType.ofInt_val, tmod_fits n p hp, TLLM_CHECK]
  by_cases h : n.val.tmod p.val = 0 <;> simp [h]

end runtime
end tensorrt_llm

namespace tensorrt_llm
namespace runtime

/-- The contract shared by the two layer-count accessors, for a layer count `n` and a
shard factor `p ≥ 1`. -/
theorem layersPerShard_contract (n p : SizeType) (hp : 1 ≤ p.val)
    (r : Except Fault SizeType)
    (hr : r = (do let m ← SizeType.mod n p
                  TLLM_CHECK (m.val == 0)
                  SizeType.div n p)) :
    ((∃ q, r = Except.ok q) ↔ n.val.tmod p.val = 0)
      ∧ (∀ q, r = Except.ok q → q.val = n.val.tdiv p.val ∧ q.val * p.val = n.val)
      ∧ (n.val.tmod p.val ≠ 0 → r = Except.error Fault.checkFailed)
      ∧ (¬ p.val ∣ n.val → r = Except.error Fault.checkFailed) := by
  rw [layersPerShard_eval n p hp] at hr
  subst hr
  by_cases h : n.val.tmod p.val = 0
  · have hdvd : p.val ∣ n.val := Int.dvd_of_tmod_eq_zero h
    rw [if_pos h]
    refine ⟨⟨fun _ => h, fun _ => ⟨_, rfl⟩⟩, ?_, fun hne => absurd h hne,
      fun hnd => absurd hdvd hnd⟩
    intro q hq
    have hq2 : q = SizeType.ofInt (n.val.tdiv p.val) := by
      injection hq with hq; exact hq.symm
    subst hq2
    rw [SizeType.ofInt_val, tdiv_fits _ _ hp]
    exact ⟨rfl, Int.tdiv_mul_cancel_of_tmod_eq_zero h⟩
  · rw [if_neg h]
    refine ⟨⟨fun hq => ?_, fun hf => absurd hf h⟩, ?_, fun _ => rfl, fun _ => rfl⟩
    · obtain ⟨q, hq⟩ := hq
      cases hq
    · intro q hq
      cases hq

namespace ModelConfig

variable {LoraModule MedusaModule : Type}

/-- `scenarioConfig` is what the constructor returns for the arguments it is named
after. -/
theorem ctor_scenario :
    ctor ⟨0, 0⟩ 50257 24 0 16 2048 nvinfer1.DataType.kHALF = Except.ok scenarioConfig := by
  rfl

/-- C1: for every descriptor and every shard factor `≥ 1`, `getNbAttentionLayers`
succeeds exactly when the C++ remainder `mNbAttentionLayers % shardFactor` is 0; the value
it then returns is the truncated quotient `q`, which is exact:
`q * shardFactor = mNbAttentionLayers`; and for every shard factor that does not divide
the layer count the call fails in `TLLM_CHECK` and returns no value. -/
theorem getNbAttentionLayers_exact_quotient_or_check_failure
    (c : ModelConfig LoraModule MedusaModule) (shardFactor : SizeType)
    (hshard : 1 ≤ shardFactor.val) :
    ((∃ q, c.getNbAttentionLayers shardFactor = Except.ok q)
        ↔ c.mNbAttentionLayers.val.tmod shardFactor.val = 0)
      ∧ (∀ q, c.getNbAttentionLayers shardFactor = Except.ok q →
          q.val = c.mNbAttentionLayers.val.tdiv shardFactor.val
            ∧ q.val * shardFactor.val = c.mNbAttentionLayers.val)
      ∧ (c.mNbAttentionLayers.val.tmod shardFactor.val ≠ 0 →
          c.getNbAttentionLayers shardFactor = Except.error Fault.checkFailed)
      ∧ (¬ shardFactor.val ∣ c.mNbAttentionLayers.val →
          c.getNbAttentionLayers shardFactor = Except.error Fault.checkFailed) :=
  layersPerShard_contract c.mNbAttentionLayers shardFactor hshard _ rfl

/-- Witness of C1 on the scenario descriptor (24 attention layers): 4 shards give 6
layers each, 5 shards fail the check. -/
theorem getNbAttentionLayers_exact_quotient_or_check_failure_witness :
    ((∃ q, scenarioConfig.getNbAttentionLayers 4 = Except.ok q)
        ↔ scenarioConfig.mNbAttentionLayers.val.tmod (4 : SizeType).val = 0)
      ∧ scenarioConfig.getNbAttentionLayers 4 = Except.ok 6
      ∧ scenarioConfig.getNbAttentionLayers 5 = Except.error Fault.checkFailed :=
  ⟨(getNbAttentionLayers_exact_quotient_or_check_failure scenarioConfig 4 (by decide)).1,
    rfl,
    (getNbAttentionLayers_exact_quotient_or_check_failure scenarioConfig 5 (by decide)).2.2.1
      (by decide)⟩

/-- C2: for every descriptor and every shard factor `≥ 1`, `getNbSsmLayers` succeeds
exactly when the C++ remainder `mNbSsmLayers % shardFactor` is 0; the value it then
returns is the truncated quotient `q`, which is exact: `q * shardFactor = mNbSsmLayers`;
for every non-dividing shard factor the call fails in `TLLM_CHECK`.  The outcome is a
function of `mNbSsmLayers` alone: a second descriptor with the same state-space layer
count, whatever its attention layer count and other members, gives the same outcome. -/
theorem getNbSsmLayers_exact_quotient_or_check_failure
    (c c' : ModelConfig LoraModule MedusaModule) (shardFactor : SizeType)
    (hshard : 1 ≤ shardFactor.val) :
    ((∃ q, c.getNbSsmLayers shardFactor = Except.ok q)
        ↔ c.mNbSsmLayers.val.tmod shardFactor.val = 0)
      ∧ (∀ q, c.getNbSsmLayers shardFactor = Except.ok q →
          q.val = c.mNbSsmLayers.val.tdiv shardFactor.val
            ∧ q.val * shardFactor.val = c.mNbSsmLayers.val)
      ∧ (c.mNbSsmLayers.val.tmod shardFactor.val ≠ 0 →
          c.getNbSsmLayers shardFactor = Except.error Fault.checkFailed)
      ∧ (¬ shardFactor.val ∣ c.mNbSsmLayers.val →
          c.getNbSsmLayers shardFactor = Except.error Fault.checkFailed)
      ∧ (c'.mNbSsmLayers = c.mNbSsmLayers →
          c'.getNbSsmLayers shardFactor = c.getNbSsmLayers shardFactor) := by
  have h := layersPerShard_contract c.mNbSsmLayers shardFactor hshard
    (c.getNbSsmLayers shardFactor) rfl
  refine ⟨h.1, h.2.1, h.2.2.1, h.2.2.2, fun heq => ?_⟩
  unfold getNbSsmLayers
  rw [heq]

/-- Witness of C2: a descriptor with 24 state-space layers and 7 attention layers (the
scenario descriptor with its two layer counts changed) gives 8 layers for 3 shards and
fails the check for 5 shards, though 7 is divisible by neither. -/
theorem getNbSsmLayers_exact_quotient_or_check_failure_witness :
    { scenarioConfig with mNbSsmLayers := 24, mNbAttentionLayers := 7 }.getNbSsmLayers 3
        = Except.ok 8
      ∧ { scenarioConfig with mNbSsmLayers := 24, mNbAttentionLayers := 7 }.getNbSsmLayers 5
        = Except.error Fault.checkFailed
      ∧ { scenarioConfig with mNbSsmLayers := 24 }.getNbSsmLayers 3
        = { scenarioConfig with mNbSsmLayers := 24, mNbAttentionLayers := 7 }.getNbSsmLayers 3 :=
  ⟨rfl,
    (getNbSsmLayers_exact_quotient_or_check_failure
      { scenarioConfig with mNbSsmLayers := 24, mNbAttentionLayers := 7 } scenarioConfig 5
      (by decide)).2.2.1 (by decide),
    (getNbSsmLayers_exact_quotient_or_check_failure
      { scenarioConfig with mNbSsmLayers := 24, mNbAttentionLayers := 7 }
      { scenarioConfig with mNbSsmLayers := 24 } 3 (by decide)).2.2.2.2 rfl⟩

end ModelConfig
end runtime
end tensorrt_llm

namespace tensorrt_llm
namespace runtime

namespace ModelConfig

variable {LoraModule MedusaModule : Type}

end ModelConfig

end runtime
end tensorrt_llm

namespace tensorrt_llm
namespace runtime
namespace ModelConfig

variable {LoraModule MedusaModule : Type}

end ModelConfig
end runtime
end tensorrt_llm

namespace tensorrt_llm
namespace runtime
namespace ModelConfig

variable {LoraModule MedusaModule : Type}

/-- C5: for every descriptor, `supportsInflightBatching()` is true if and only if the
variant is transformer-based and the attention plugin, packed input and paged KV cache
are all enabled, or the variant is state-space-based and the mamba-conv1d plugin, packed
input and paged state are all enabled.  No other member influences the result: a second
descriptor with the same variant and the same five flags gives the same result. -/
theorem supportsInflightBatching_iff_and_frame (c c' : ModelConfig LoraModule MedusaModule) :
    (c.supportsInflightBatching = true ↔
        (c.isTransformerBased = true ∧ c.useGptAttentionPlugin = true
            ∧ c.usePackedInput = true ∧ c.usePagedKvCache = true)
          ∨ (c.isSsmBased = true ∧ c.useMambaConv1dPlugin = true
            ∧ c.usePackedInput = true ∧ c.usePagedState = true))
      ∧ (c'.getModelVariant = c.getModelVariant →
          c'.useGptAttentionPlugin = c.useGptAttentionPlugin →
          c'.useMambaConv1dPlugin = c.useMambaConv1dPlugin →
          c'.usePackedInput = c.usePackedInput →
          c'.usePagedKvCache = c.usePagedKvCache →
          c'.usePagedState = c.usePagedState →
          c'.supportsInflightBatching = c.supportsInflightBatching) := by
  constructor
  · simp only [supportsInflightBatching, useGptAttentionPlugin, usePackedInput,
      usePagedKvCache, useMambaConv1dPlugin, usePagedState, Bool.or_eq_true,
      Bool.and_eq_true, and_assoc]
  · intro hv h1 h2 h3 h4 h5
    simp only [getModelVariant, useGptAttentionPlugin, usePackedInput, usePagedKvCache,
      useMambaConv1dPlugin, usePagedState] at hv h1 h2 h3 h4 h5
    simp only [supportsInflightBatching, isTransformerBased, isSsmBased, hv, h1, h2, h3,
      h4, h5]

/-- Witness of C5: the scenario descriptor (variant Gpt) supports inflight batching once
the attention plugin, packed input and paged KV cache are switched on, and changing a
member outside the variant and the five flags, here `mMaxBatchSize`, does not alter
that. -/
theorem supportsInflightBatching_iff_and_frame_witness :
    (((scenarioConfig.useGptAttentionPluginSet true).usePackedInputSet true).usePagedKvCacheSet
        true).supportsInflightBatching = true
      ∧ ((((scenarioConfig.useGptAttentionPluginSet true).usePackedInputSet
          true).usePagedKvCacheSet true).setMaxBatchSize 8).supportsInflightBatching
        = (((scenarioConfig.useGptAttentionPluginSet true).usePackedInputSet
          true).usePagedKvCacheSet true).supportsInflightBatching :=
  ⟨(supportsInflightBatching_iff_and_frame
      (((scenarioConfig.useGptAttentionPluginSet true).usePackedInputSet
        true).usePagedKvCacheSet true) scenarioConfig).1.2 (Or.inl ⟨rfl, rfl, rfl, rfl⟩),
    (supportsInflightBatching_iff_and_frame
      (((scenarioConfig.useGptAttentionPluginSet true).usePackedInputSet
        true).usePagedKvCacheSet true)
      ((((scenarioConfig.useGptAttentionPluginSet true).usePackedInputSet
        true).usePagedKvCacheSet true).setMaxBatchSize 8)).2 rfl rfl rfl rfl rfl rfl⟩

/-- C6: for every descriptor, `getKvDataType()` is `kFP8` whenever the quant mode has the
FP8 KV-cache bit, whatever the INT8 KV-cache bit; it is `kINT8` when the INT8 KV-cache
bit is set and the FP8 one is not; and it is `getDataType()` when neither is set. -/
theorem getKvDataType_precedence (c : ModelConfig LoraModule MedusaModule) :
    (c.getQuantMode.hasFp8KvCache = true → c.getKvDataType = nvinfer1.DataType.kFP8)
      ∧ (c.getQuantMode.hasFp8KvCache = false → c.getQuantMode.hasInt8KvCache = true →
          c.getKvDataType = nvinfer1.DataType.kINT8)
      ∧ (c.getQuantMode.hasFp8KvCache = false → c.getQuantMode.hasInt8KvCache = false →
          c.getKvDataType = c.getDataType) := by
  refine ⟨fun h => ?_, fun h1 h2 => ?_, fun h1 h2 => ?_⟩
  · simp [getKvDataType, h]
  · simp [getKvDataType, h1, h2]
  · simp [getKvDataType, h1, h2]

/-- Witness of C6 on the scenario descriptor (base type `kHALF`): with both cache bits
set (bitset 192) the type is `kFP8`; with only the INT8 bit (64) it is `kINT8`; with no
bit it is `kHALF`. -/
theorem getKvDataType_precedence_witness :
    ((scenarioConfig.setQuantMode ⟨192⟩).getQuantMode.hasFp8KvCache = true
        ∧ (scenarioConfig.setQuantMode ⟨192⟩).getQuantMode.hasInt8KvCache = true
        ∧ (scenarioConfig.setQuantMode ⟨192⟩).getKvDataType = nvinfer1.DataType.kFP8)
      ∧ (scenarioConfig.setQuantMode ⟨64⟩).getKvDataType = nvinfer1.DataType.kINT8
      ∧ scenarioConfig.getKvDataType = nvinfer1.DataType.kHALF :=
  ⟨⟨by decide, by decide,
      (getKvDataType_precedence (scenarioConfig.setQuantMode ⟨192⟩)).1 (by decide)⟩,
    (getKvDataType_precedence (scenarioConfig.setQuantMode ⟨64⟩)).2.1 (by decide) (by decide),
    (getKvDataType_precedence scenarioConfig).2.2 (by decide) (by decide)⟩

/-- C7: every variant is one of `kGpt`, `kGlm`, `kMamba`, `kRecurrentGemma`; and for every
descriptor `isTransformerBased()` is true iff the variant is `kGpt`, `kGlm` or
`kRecurrentGemma`, `isSsmBased()` is true iff it is `kMamba` or `kRecurrentGemma`, both
are true iff it is `kRecurrentGemma`, and at least one of the two is true. -/
theorem variant_classification (c : ModelConfig LoraModule MedusaModule) :
    (∀ v : ModelVariant, v = ModelVariant.kGpt ∨ v = ModelVariant.kGlm
        ∨ v = ModelVariant.kMamba ∨ v = ModelVariant.kRecurrentGemma)
      ∧ (c.isTransformerBased = true ↔
          c.getModelVariant = ModelVariant.kGpt ∨ c.getModelVariant = ModelVariant.kGlm
            ∨ c.getModelVariant = ModelVariant.kRecurrentGemma)
      ∧ (c.isSsmBased = true ↔
          c.getModelVariant = ModelVariant.kMamba
            ∨ c.getModelVariant = ModelVariant.kRecurrentGemma)
      ∧ ((c.isTransformerBased = true ∧ c.isSsmBased = true) ↔
          c.getModelVariant = ModelVariant.kRecurrentGemma)
      ∧ (c.isTransformerBased = true ∨ c.isSsmBased = true) := by
  refine ⟨fun v => by cases v <;> simp, ?_⟩
  unfold isTransformerBased isSsmBased getModelVariant
  generalize c.mModelVariant = v
  cases v <;> decide

end ModelConfig
end runtime
end tensorrt_llm

namespace tensorrt_llm
namespace runtime
namespace ModelConfig

variable {LoraModule MedusaModule : Type}

/-- The constructor returns a descriptor exactly when the quotient `hiddenSize / nbHeads`
is defined, that is when `nbHeads` is not 0 and the operands are not `-2^31` and `-1`;
every member then has the value of its initialiser. -/
theorem ctor_eq_ok_iff (u : Indeterminate) (vocabSize nbAttentionLayers nbSsmLayers nbHeads
    hiddenSize : SizeType) (dtype : nvinfer1.DataType)
    (c : ModelConfig LoraModule MedusaModule) :
    ctor u vocabSize nbAttentionLayers nbSsmLayers nbHeads hiddenSize dtype = Except.ok c ↔
      (nbHeads.val ≠ 0 ∧ ¬ (hiddenSize.val = -2147483648 ∧ nbHeads.val = -1)) ∧ c =
        { mVocabSize := vocabSize
          mNbAttentionLayers := nbAttentionLayers
          mNbSsmLayers := nbSsmLayers
          mNbHeads := nbHeads
          mNbKvHeads := nbHeads
          mHiddenSize := hiddenSize
          mSizePerHead := SizeType.ofInt (hiddenSize.val.tdiv nbHeads.val)
          mDataType := dtype
          mUseGptAttentionPlugin := false
          mUseMambaConv1dPlugin := false
          mInputPacked := false
          mPagedKvCache := false
          mPagedState := false
          mTokensPerBlock := 64
          mQuantMode := common.QuantMode.none
          mMaxBatchSize := 0
          mMaxBeamWidth := 0
          mMaxInputLen := 0
          mMaxSequenceLen := 0
          mMaxNumTokens := none
          mComputeContextLogits := false
          mComputeGenerationLogits := false
          mModelVariant := ModelVariant.kGpt
          mUseCustomAllReduce := false
          mMaxPromptEmbeddingTableSize := 0
          mMaxDraftLen := 0
          mUseContextFMHAForGeneration := false
          mPagedContextFMHA := false
          mUseXQA := false
          mUseLoraPlugin := false
          mLoraModules := []
          mMlpHiddenSize := 0
          mMaxLoraRank := u.mMaxLoraRank
          mMedusaModule := none
          mMambaConfig := none
          mUseCrossAttention := false
          mUsePositionEmbedding := true
          mUseTokenTypeEmbedding := false
          mFfnHiddenSize := u.mFfnHiddenSize
          mRnnConfig := none
          mLayerTypes := [] } := by
  unfold ctor SizeType.div
  by_cases h : nbHeads.val = 0
  · rw [if_pos h]
    constructor
    · intro hc; cases hc
    · intro hc; exact absurd h hc.1.1
  · rw [if_neg h]
    by_cases h' : hiddenSize.val = -2147483648 ∧ nbHeads.val = -1
    · rw [if_pos h']
      constructor
      · intro hc; cases hc
      · intro hc; exact absurd h' hc.1.2
    · rw [if_neg h']
      constructor
      · intro hc
        simp only [bind, Except.bind, pure, Except.pure] at hc
        injection hc with hc
        exact ⟨⟨h, h'⟩, hc.symm⟩
      · intro hc
        rw [hc.2]
        rfl

end ModelConfig
end runtime
end tensorrt_llm

namespace tensorrt_llm
namespace runtime
namespace ModelConfig

variable {LoraModule MedusaModule : Type}

/-- C8 (as amended): for every descriptor and every value `n` of `maxDraftLen` below the
largest `SizeType` value `2^31 - 1` (so that `n + 1` is a `SizeType` value), also after
`setMaxDraftLen(n)`, `getMaxTokensPerStep()` is `n + 1`; and every freshly constructed
descriptor returns 1. -/
theorem getMaxTokensPerStep_eq_succ_of_fits (c : ModelConfig LoraModule MedusaModule)
    (n : SizeType) (hn : n.val < 2147483647) :
    (c.getMaxDraftLen = n → c.getMaxTokensPerStep.val = n.val + 1)
      ∧ (c.setMaxDraftLen n).getMaxDraftLen = n
      ∧ (c.setMaxDraftLen n).getMaxTokensPerStep.val = n.val + 1
      ∧ (∀ (u : Indeterminate) (vocabSize nbAttentionLayers nbSsmLayers nbHeads
            hiddenSize : SizeType) (dtype : nvinfer1.DataType)
            (c0 : ModelConfig LoraModule MedusaModule),
          ctor u vocabSize nbAttentionLayers nbSsmLayers nbHeads hiddenSize dtype
              = Except.ok c0 →
            c0.getMaxDraftLen.val = 0 ∧ c0.getMaxTokensPerStep.val = 1) := by
  have hlo := n.lo
  have hsucc : (n + 1).val = n.val + 1 := by
    rw [SizeType.add_val, SizeType.one_val]
    exact wrapInt32_of_fits (by omega) (by omega)
  refine ⟨fun h => ?_, rfl, hsucc, ?_⟩
  · unfold getMaxDraftLen at h
    unfold getMaxTokensPerStep
    rw [h]; exact hsucc
  · intro u vocabSize nbAttentionLayers nbSsmLayers nbHeads hiddenSize dtype c0 hc0
    rw [ctor_eq_ok_iff] at hc0
    rw [hc0.2]
    exact ⟨SizeType.zero_val, show ((0 : SizeType) + 1).val = 1 by decide⟩

/-- Witness of C8 (as amended): after `setMaxDraftLen(4)` on the scenario descriptor,
`getMaxTokensPerStep()` is 5. -/
theorem getMaxTokensPerStep_eq_succ_of_fits_witness :
    (4 : SizeType).val < 2147483647
      ∧ (scenarioConfig.setMaxDraftLen 4).getMaxTokensPerStep.val = (4 : SizeType).val + 1 :=
  ⟨by decide, (getMaxTokensPerStep_eq_succ_of_fits scenarioConfig 4 (by decide)).2.2.1⟩

/-- C8 fails as stated: on the descriptor constructed for the scenario, after
`setMaxDraftLen(2147483647)` the draft length is `2147483647 ≥ 0` and
`getMaxTokensPerStep()` is `-2147483648`, not `2147483647 + 1`, which no `SizeType` value
equals. -/
theorem getMaxTokensPerStep_ne_succ_at_int_max :
    ∃ c : ModelConfig Unit Unit,
      ctor ⟨0, 0⟩ 50257 24 0 16 2048 nvinfer1.DataType.kHALF = Except.ok c
        ∧ 0 ≤ (c.setMaxDraftLen 2147483647).getMaxDraftLen.val
        ∧ (c.setMaxDraftLen 2147483647).getMaxTokensPerStep.val = -2147483648
        ∧ (c.setMaxDraftLen 2147483647).getMaxTokensPerStep.val
            ≠ (c.setMaxDraftLen 2147483647).getMaxDraftLen.val + 1
        ∧ ¬ ∃ r : SizeType, r.val = (c.setMaxDraftLen 2147483647).getMaxDraftLen.val + 1 := by
  refine ⟨scenarioConfig, rfl, by decide, by decide, by decide, ?_⟩
  rintro ⟨r, hr⟩
  have hhi := r.hi
  have h1 : (scenarioConfig.setMaxDraftLen 2147483647).getMaxDraftLen.val = 2147483647 := by
    decide
  omega

/-- C9 (as amended): the constructor returns a descriptor exactly for the argument
tuples on which the quotient `hiddenSize / nbHeads` is defined (`nbHeads ≠ 0`, and not
`hiddenSize = -2^31` with `nbHeads = -1`), and every descriptor it returns has the
capability flags attention plugin, mamba-conv1d plugin, packed input, paged KV cache,
paged state, context-FMHA-for-generation, paged context FMHA, custom all-reduce, XQA,
LoRA plugin, cross attention and token-type embedding disabled, the position-embedding
flag enabled, `tokensPerBlock` equal to 64, the limits `maxBatchSize`, `maxBeamWidth`,
`maxInputLen`, `maxSequenceLen`, `maxPromptEmbeddingTableSize`, `maxDraftLen` and
`mlpHiddenSize` equal to zero, and variant `kGpt`. -/
theorem ctor_defaults (u : Indeterminate) (vocabSize nbAttentionLayers nbSsmLayers nbHeads
    hiddenSize : SizeType) (dtype : nvinfer1.DataType) :
    ((∃ c : ModelConfig LoraModule MedusaModule,
          ctor u vocabSize nbAttentionLayers nbSsmLayers nbHeads hiddenSize dtype = Except.ok c)
        ↔ nbHeads.val ≠ 0 ∧ ¬ (hiddenSize.val = -2147483648 ∧ nbHeads.val = -1))
      ∧ ∀ c : ModelConfig LoraModule MedusaModule,
        ctor u vocabSize nbAttentionLayers nbSsmLayers nbHeads hiddenSize dtype = Except.ok c →
          (c.useGptAttentionPlugin = false ∧ c.useMambaConv1dPlugin = false
            ∧ c.usePackedInput = false ∧ c.usePagedKvCache = false ∧ c.usePagedState = false
            ∧ c.getContextFMHAForGeneration = false ∧ c.getPagedContextFMHA = false
            ∧ c.useCustomAllReduce = false ∧ c.useXQA = false ∧ c.useLoraPlugin = false
            ∧ c.useCrossAttention = false ∧ c.useTokenTypeEmbedding = false)
          ∧ c.usePositionEmbedding = true
          ∧ c.getTokensPerBlock.val = 64
          ∧ (c.getMaxBatchSize.val = 0 ∧ c.getMaxBeamWidth.val = 0 ∧ c.getMaxInputLen.val = 0
            ∧ c.getMaxSequenceLen.val = 0 ∧ c.getMaxPromptEmbeddingTableSize.val = 0
            ∧ c.getMaxDraftLen.val = 0 ∧ c.getMlpHiddenSize.val = 0)
          ∧ c.getModelVariant = ModelVariant.kGpt := by
  refine ⟨⟨fun hc => ?_, fun h => ?_⟩, fun c hc => ?_⟩
  · obtain ⟨c, hc⟩ := hc
    exact ((ctor_eq_ok_iff _ _ _ _ _ _ _ _).1 hc).1
  · exact ⟨_, (ctor_eq_ok_iff u vocabSize nbAttentionLayers nbSsmLayers nbHeads hiddenSize
      dtype _).2 ⟨h, rfl⟩⟩
  · rw [ctor_eq_ok_iff] at hc
    rw [hc.2]
    have h64 : (64 : SizeType).val = 64 := by decide
    have h0 : (0 : SizeType).val = 0 := SizeType.zero_val
    exact ⟨⟨rfl, rfl, rfl, rfl, rfl, rfl, rfl, rfl, rfl, rfl, rfl, rfl⟩, rfl, h64,
      ⟨h0, h0, h0, h0, h0, h0, h0⟩, rfl⟩

/-- Witness of C9 (as amended): the scenario's constructor call returns a descriptor. -/
theorem ctor_defaults_witness :
    ∃ c : ModelConfig Unit Unit,
      ctor ⟨0, 0⟩ 50257 24 0 16 2048 nvinfer1.DataType.kHALF = Except.ok c :=
  (ctor_defaults ⟨0, 0⟩ 50257 24 0 16 2048 nvinfer1.DataType.kHALF).1.2
    ⟨by decide, by decide⟩

/-- C9 fails as stated: the descriptor constructed for the scenario has the
position-embedding flag enabled, not disabled, and `tokensPerBlock` equal to 64, not 0. -/
theorem ctor_defaults_not_all_disabled_or_zero :
    ∃ c : ModelConfig Unit Unit,
      ctor ⟨0, 0⟩ 50257 24 0 16 2048 nvinfer1.DataType.kHALF = Except.ok c
        ∧ c.usePositionEmbedding = true ∧ c.getTokensPerBlock.val = 64
        ∧ ¬ (c.usePositionEmbedding = false) ∧ ¬ (c.getTokensPerBlock.val = 0) :=
  ⟨scenarioConfig, rfl, rfl, by decide, by decide, by decide⟩

/-- C10: for every construction with `nbHeads > 0` and `hiddenSize` divisible by
`nbHeads`, the constructor returns a descriptor whose `getSizePerHead()` is the quotient
`hiddenSize / nbHeads`, so that `getNbHeads() * getSizePerHead() = getHiddenSize()`; its
`getNbKvHeads()` and `getNbHeads()` are both `nbHeads`, and `getVocabSize()`,
`getHiddenSize()` and `getDataType()` are the constructor arguments. -/
theorem ctor_dimensions (u : Indeterminate) (vocabSize nbAttentionLayers nbSsmLayers nbHeads
    hiddenSize : SizeType) (dtype : nvinfer1.DataType) (hheads : 0 < nbHeads.val)
    (hdvd : nbHeads.val ∣ hiddenSize.val) :
    ∃ c : ModelConfig LoraModule MedusaModule,
      ctor u vocabSize nbAttentionLayers nbSsmLayers nbHeads hiddenSize dtype = Except.ok c
        ∧ c.getSizePerHead.val = hiddenSize.val.tdiv nbHeads.val
        ∧ c.getSizePerHead.val = hiddenSize.val / nbHeads.val
        ∧ c.getNbHeads.val * c.getSizePerHead.val = c.getHiddenSize.val
        ∧ c.getNbKvHeads = c.getNbHeads ∧ c.getNbHeads = nbHeads
        ∧ c.getVocabSize = vocabSize ∧ c.getHiddenSize = hiddenSize
        ∧ c.getDataType = dtype := by
  have h1 : 1 ≤ nbHeads.val := by omega
  have hq : (SizeType.ofInt (hiddenSize.val.tdiv nbHeads.val)).val
      = hiddenSize.val.tdiv nbHeads.val := by
    rw [SizeType.ofInt_val, tdiv_fits _ _ h1]
  have hmul : hiddenSize.val.tdiv nbHeads.val * nbHeads.val = hiddenSize.val :=
    Int.tdiv_mul_cancel hdvd
  refine ⟨_, (ctor_eq_ok_iff u vocabSize nbAttentionLayers nbSsmLayers nbHeads hiddenSize
    dtype _).2 ⟨⟨by omega, by omega⟩, rfl⟩, hq, ?_, ?_, rfl, rfl, rfl, rfl, rfl⟩
  · show (SizeType.ofInt (hiddenSize.val.tdiv nbHeads.val)).val = hiddenSize.val / nbHeads.val
    rw [hq]
    exact (Int.ediv_eq_of_eq_mul_left (by omega) hmul.symm).symm
  · show nbHeads.val * (SizeType.ofInt (hiddenSize.val.tdiv nbHeads.val)).val = hiddenSize.val
    rw [hq, mul_comm]; exact hmul

/-- Witness of C10: 16 heads and hidden size 2048 give a size per head of 128. -/
theorem ctor_dimensions_witness :
    ∃ c : ModelConfig Unit Unit,
      ctor ⟨0, 0⟩ 50257 24 0 16 2048 nvinfer1.DataType.kHALF = Except.ok c
        ∧ c.getSizePerHead.val = (2048 : SizeType).val.tdiv (16 : SizeType).val
        ∧ c.getSizePerHead.val = (2048 : SizeType).val / (16 : SizeType).val
        ∧ c.getNbHeads.val * c.getSizePerHead.val = c.getHiddenSize.val
        ∧ c.getNbKvHeads = c.getNbHeads ∧ c.getNbHeads = 16
        ∧ c.getVocabSize = 50257 ∧ c.getHiddenSize = 2048
        ∧ c.getDataType = nvinfer1.DataType.kHALF :=
  ctor_dimensions ⟨0, 0⟩ 50257 24 0 16 2048 nvinfer1.DataType.kHALF (by decide) (by decide)

end ModelConfig
end runtime
end tensorrt_llm

namespace tensorrt_llm
namespace runtime
namespace ModelConfig

variable {LoraModule MedusaModule : Type}

/-- C11 (as amended): the constructor has no check of its own, and it returns a
descriptor exactly for the argument tuples on which the quotient `hiddenSize / nbHeads`
is defined: every tuple with `nbHeads ≠ 0`, whether or not `hiddenSize` is divisible by
`nbHeads`, other than `hiddenSize = -2^31` with `nbHeads = -1`.  With `nbHeads = 0` the
initialiser `mHiddenSize / mNbHeads` divides by zero, with `-2^31` and `-1` its quotient
is no `SizeType` value, and in both cases no descriptor is returned.  A layer count that
a shard factor does not divide only surfaces afterwards, when `getNbAttentionLayers` or
`getNbSsmLayers` is called with that factor. -/
theorem ctor_returns_iff_quotient_defined (u : Indeterminate) (vocabSize nbAttentionLayers
    nbSsmLayers nbHeads hiddenSize : SizeType) (dtype : nvinfer1.DataType) :
    ((∃ c : ModelConfig LoraModule MedusaModule,
          ctor u vocabSize nbAttentionLayers nbSsmLayers nbHeads hiddenSize dtype = Except.ok c)
        ↔ nbHeads.val ≠ 0 ∧ ¬ (hiddenSize.val = -2147483648 ∧ nbHeads.val = -1))
      ∧ (nbHeads.val = 0 →
          (ctor u vocabSize nbAttentionLayers nbSsmLayers nbHeads hiddenSize dtype :
            Except Fault (ModelConfig LoraModule MedusaModule))
              = Except.error Fault.divisionByZero)
      ∧ (hiddenSize.val = -2147483648 ∧ nbHeads.val = -1 →
          (ctor u vocabSize nbAttentionLayers nbSsmLayers nbHeads hiddenSize dtype :
            Except Fault (ModelConfig LoraModule MedusaModule))
              = Except.error Fault.divisionOverflow)
      ∧ ∀ c : ModelConfig LoraModule MedusaModule,
          ctor u vocabSize nbAttentionLayers nbSsmLayers nbHeads hiddenSize dtype = Except.ok c →
            ∀ p : SizeType, 1 ≤ p.val →
              (¬ p.val ∣ nbAttentionLayers.val →
                  c.getNbAttentionLayers p = Except.error Fault.checkFailed)
                ∧ (¬ p.val ∣ nbSsmLayers.val →
                  c.getNbSsmLayers p = Except.error Fault.checkFailed) := by
  refine ⟨⟨fun hc => ?_, fun h => ?_⟩, fun h => ?_, fun h => ?_, fun c hc p hp => ?_⟩
  · obtain ⟨c, hc⟩ := hc
    exact ((ctor_eq_ok_iff _ _ _ _ _ _ _ _).1 hc).1
  · exact ⟨_, (ctor_eq_ok_iff u vocabSize nbAttentionLayers nbSsmLayers nbHeads hiddenSize
      dtype _).2 ⟨h, rfl⟩⟩
  · simp [ctor, SizeType.div, h, bind, Except.bind]
  · have h0 : nbHeads.val ≠ 0 := by omega
    simp [ctor, SizeType.div, h, bind, Except.bind]
  · rw [ctor_eq_ok_iff] at hc
    rw [hc.2]
    exact ⟨(layersPerShard_contract nbAttentionLayers p hp _ rfl).2.2.2,
      (layersPerShard_contract nbSsmLayers p hp _ rfl).2.2.2⟩

/-- Witness of C11 (as amended): 16 heads and a hidden size of 2050, which 16 does not
divide, still construct a descriptor; `-1` heads and a hidden size of `-2^31` do not. -/
theorem ctor_returns_iff_quotient_defined_witness :
    (¬ (16 : SizeType).val ∣ (2050 : SizeType).val
        ∧ ∃ c : ModelConfig Unit Unit,
          ctor ⟨0, 0⟩ 50257 24 0 16 2050 nvinfer1.DataType.kHALF = Except.ok c)
      ∧ (ctor ⟨0, 0⟩ 50257 24 0 (SizeType.ofInt (-1)) (SizeType.ofInt (-2147483648))
          nvinfer1.DataType.kHALF : Except Fault (ModelConfig Unit Unit))
            = Except.error Fault.divisionOverflow :=
  ⟨⟨by decide,
      (ctor_returns_iff_quotient_defined ⟨0, 0⟩ 50257 24 0 16 2050
        nvinfer1.DataType.kHALF).1.2 ⟨by decide, by decide⟩⟩,
    (ctor_returns_iff_quotient_defined ⟨0, 0⟩ 50257 24 0 (SizeType.ofInt (-1))
      (SizeType.ofInt (-2147483648)) nvinfer1.DataType.kHALF).2.2.1 ⟨by decide, by decide⟩⟩

/-- C11 fails as stated: with `nbHeads = 0` the constructor divides by zero and returns
no descriptor. -/
theorem ctor_fails_at_zero_heads :
    (ctor ⟨0, 0⟩ 50257 24 0 0 2048 nvinfer1.DataType.kHALF :
        Except Fault (ModelConfig Unit Unit)) = Except.error Fault.divisionByZero
      ∧ ¬ ∃ c : ModelConfig Unit Unit,
        ctor ⟨0, 0⟩ 50257 24 0 0 2048 nvinfer1.DataType.kHALF = Except.ok c := by
  refine ⟨rfl, ?_⟩
  rintro ⟨c, hc⟩
  exact ((ctor_eq_ok_iff _ _ _ _ _ _ _ _).1 hc).1.1 (by decide)

/-- C12: for every descriptor, `usePromptTuning()` is true if and only if
`maxPromptEmbeddingTableSize > 0`; it is false when the value is 0, as on every freshly
constructed descriptor, and true after `setMaxPromptEmbeddingTableSize(n)` for every
positive `n`. -/
theorem usePromptTuning_iff_positive (c : ModelConfig LoraModule MedusaModule)
    (n : SizeType) :
    (c.usePromptTuning = true ↔ 0 < c.getMaxPromptEmbeddingTableSize.val)
      ∧ (c.getMaxPromptEmbeddingTableSize.val = 0 → c.usePromptTuning = false)
      ∧ (c.setMaxPromptEmbeddingTableSize n).getMaxPromptEmbeddingTableSize = n
      ∧ (0 < n.val → (c.setMaxPromptEmbeddingTableSize n).usePromptTuning = true)
      ∧ (∀ (u : Indeterminate) (vocabSize nbAttentionLayers nbSsmLayers nbHeads
            hiddenSize : SizeType) (dtype : nvinfer1.DataType)
            (c0 : ModelConfig LoraModule MedusaModule),
          ctor u vocabSize nbAttentionLayers nbSsmLayers nbHeads hiddenSize dtype
              = Except.ok c0 →
            c0.getMaxPromptEmbeddingTableSize.val = 0 ∧ c0.usePromptTuning = false) := by
  refine ⟨?_, fun h => ?_, rfl, fun h => ?_, ?_⟩
  · simp [usePromptTuning, getMaxPromptEmbeddingTableSize]
  · simp only [getMaxPromptEmbeddingTableSize] at h
    simp [usePromptTuning, h]
  · simp [usePromptTuning, setMaxPromptEmbeddingTableSize, h]
  · intro u vocabSize nbAttentionLayers nbSsmLayers nbHeads hiddenSize dtype c0 hc0
    rw [ctor_eq_ok_iff] at hc0
    rw [hc0.2]
    exact ⟨SizeType.zero_val, by simp [usePromptTuning]⟩

/-- Witness of C12 on the scenario descriptor: prompt tuning is off as constructed and on
after `setMaxPromptEmbeddingTableSize(100)`. -/
theorem usePromptTuning_iff_positive_witness :
    scenarioConfig.usePromptTuning = false
      ∧ (scenarioConfig.setMaxPromptEmbeddingTableSize 100).usePromptTuning = true :=
  ⟨(usePromptTuning_iff_positive scenarioConfig 100).2.1 (by decide),
    (usePromptTuning_iff_positive scenarioConfig 100).2.2.2.1 (by decide)⟩

/-- C13: for every descriptor, `useMedusa()` is true if and only if `getMedusaModule()`
holds a value; it is false on every freshly constructed descriptor, whose
`getMedusaModule()` is empty; and after `setMedusaModule(m)`, `useMedusa()` is true and
`getMedusaModule()` holds exactly `m`. -/
theorem useMedusa_iff_populated (c : ModelConfig LoraModule MedusaModule)
    (m : MedusaModule) :
    (c.useMedusa = true ↔ ∃ m', c.getMedusaModule = some m')
      ∧ (c.useMedusa = false ↔ c.getMedusaModule = none)
      ∧ (c.setMedusaModule m).useMedusa = true
      ∧ (c.setMedusaModule m).getMedusaModule = some m
      ∧ (∀ (u : Indeterminate) (vocabSize nbAttentionLayers nbSsmLayers nbHeads
            hiddenSize : SizeType) (dtype : nvinfer1.DataType)
            (c0 : ModelConfig LoraModule MedusaModule),
          ctor u vocabSize nbAttentionLayers nbSsmLayers nbHeads hiddenSize dtype
              = Except.ok c0 →
            c0.useMedusa = false ∧ c0.getMedusaModule = none) := by
  refine ⟨?_, ?_, rfl, rfl, ?_⟩
  · unfold useMedusa getMedusaModule
    exact Option.isSome_iff_exists
  · unfold useMedusa getMedusaModule
    cases c.mMedusaModule <;> simp
  · intro u vocabSize nbAttentionLayers nbSsmLayers nbHeads hiddenSize dtype c0 hc0
    rw [ctor_eq_ok_iff] at hc0
    rw [hc0.2]
    exact ⟨rfl, rfl⟩

/-- Witness of C13 on the scenario descriptor, with `Unit` for the module type. -/
theorem useMedusa_iff_populated_witness :
    scenarioConfig.useMedusa = false
      ∧ (scenarioConfig.setMedusaModule ()).useMedusa = true
      ∧ (scenarioConfig.setMedusaModule ()).getMedusaModule = some () :=
  ⟨(useMedusa_iff_populated scenarioConfig ()).2.1.2 rfl,
    (useMedusa_iff_populated scenarioConfig ()).2.2.1,
    (useMedusa_iff_populated scenarioConfig ()).2.2.2.1⟩

/-- C14: for every descriptor, `hasMambaConfig()` is true iff `getMambaConfig()` holds a
value and `hasRnnConfig()` is true iff `getRnnConfig()` holds a value; both are false on
every freshly constructed descriptor; after `setMambaConfig(mc)`, `hasMambaConfig()` is
true and `getMambaConfig()` holds `mc`, with `hasRnnConfig()` and `getRnnConfig()`
unchanged; after `setRnnConfig(rc)`, `hasRnnConfig()` is true and `getRnnConfig()` holds
`rc`, with `hasMambaConfig()` and `getMambaConfig()` unchanged. -/
theorem hasMambaConfig_hasRnnConfig_iff_populated (c : ModelConfig LoraModule MedusaModule)
    (mc : MambaConfig) (rc : RnnConfig) :
    ((c.hasMambaConfig = true ↔ ∃ x, c.getMambaConfig = some x)
        ∧ (c.hasRnnConfig = true ↔ ∃ x, c.getRnnConfig = some x))
      ∧ ((c.setMambaConfig mc).hasMambaConfig = true
        ∧ (c.setMambaConfig mc).getMambaConfig = some mc
        ∧ (c.setMambaConfig mc).hasRnnConfig = c.hasRnnConfig
        ∧ (c.setMambaConfig mc).getRnnConfig = c.getRnnConfig)
      ∧ ((c.setRnnConfig rc).hasRnnConfig = true
        ∧ (c.setRnnConfig rc).getRnnConfig = some rc
        ∧ (c.setRnnConfig rc).hasMambaConfig = c.hasMambaConfig
        ∧ (c.setRnnConfig rc).getMambaConfig = c.getMambaConfig)
      ∧ (∀ (u : Indeterminate) (vocabSize nbAttentionLayers nbSsmLayers nbHeads
            hiddenSize : SizeType) (dtype : nvinfer1.DataType)
            (c0 : ModelConfig LoraModule MedusaModule),
          ctor u vocabSize nbAttentionLayers nbSsmLayers nbHeads hiddenSize dtype
              = Except.ok c0 →
            c0.hasMambaConfig = false ∧ c0.hasRnnConfig = false) := by
  refine ⟨⟨?_, ?_⟩, ⟨rfl, rfl, rfl, rfl⟩, ⟨rfl, rfl, rfl, rfl⟩, ?_⟩
  · unfold hasMambaConfig getMambaConfig
    exact Option.isSome_iff_exists
  · unfold hasRnnConfig getRnnConfig
    exact Option.isSome_iff_exists
  · intro u vocabSize nbAttentionLayers nbSsmLayers nbHeads hiddenSize dtype c0 hc0
    rw [ctor_eq_ok_iff] at hc0
    rw [hc0.2]
    exact ⟨rfl, rfl⟩

/-- Witness of C14 on the scenario descriptor: setting a Mamba configuration makes
`hasMambaConfig()` true and leaves `hasRnnConfig()` false. -/
theorem hasMambaConfig_hasRnnConfig_iff_populated_witness :
    (scenarioConfig.setMambaConfig ⟨16, 4, 2⟩).hasMambaConfig = true
      ∧ (scenarioConfig.setMambaConfig ⟨16, 4, 2⟩).getMambaConfig = some ⟨16, 4, 2⟩
      ∧ (scenarioConfig.setMambaConfig ⟨16, 4, 2⟩).hasRnnConfig = false
      ∧ (scenarioConfig.setRnnConfig ⟨4, 2560⟩).hasRnnConfig = true
      ∧ (scenarioConfig.setRnnConfig ⟨4, 2560⟩).hasMambaConfig = false :=
  ⟨(hasMambaConfig_hasRnnConfig_iff_populated scenarioConfig ⟨16, 4, 2⟩ ⟨4, 2560⟩).2.1.1,
    (hasMambaConfig_hasRnnConfig_iff_populated scenarioConfig ⟨16, 4, 2⟩ ⟨4, 2560⟩).2.1.2.1,
    rfl,
    (hasMambaConfig_hasRnnConfig_iff_populated scenarioConfig ⟨16, 4, 2⟩ ⟨4, 2560⟩).2.2.1.1,
    rfl⟩

end ModelConfig
end runtime
end tensorrt_llm

namespace tensorrt_llm
namespace runtime
namespace ModelConfig

variable {LoraModule MedusaModule : Type}

/-- C15: the constructor called with `vocabSize = 50257`, `nbAttentionLayers = 24`,
`nbSsmLayers = 0`, `nbHeads = 16`, `hiddenSize = 2048` and `dtype = kHALF` (fp16)
returns a descriptor, whatever the two uninitialised members hold; on it
`getNbAttentionLayers(4)` returns 6 without failing and `getVocabSizePadded(8)` returns
50264. -/
theorem scenario_end_to_end (u : Indeterminate) :
    ∃ c : ModelConfig LoraModule MedusaModule,
      ctor u 50257 24 0 16 2048 nvinfer1.DataType.kHALF = Except.ok c
        ∧ c.getNbAttentionLayers 4 = Except.ok 6 ∧ (6 : SizeType).val = 6
        ∧ c.getVocabSizePadded 8 = Except.ok 50264 ∧ (50264 : SizeType).val = 50264 :=
  ⟨_, (ctor_eq_ok_iff u 50257 24 0 16 2048 nvinfer1.DataType.kHALF _).2 ⟨⟨by decide, by decide⟩, rfl⟩,
    rfl, by decide, rfl, by decide⟩

/-- C16 (as amended): for every descriptor whose variant is transformer-based, with the
attention plugin and packed input enabled, `supportsInflightBatching()` is true when the
paged KV cache is enabled; it is false when the paged KV cache is disabled, unless the
variant is also state-space-based with the mamba-conv1d plugin and paged state enabled;
and for every descriptor whose variant is state-space-based, with the mamba-conv1d
plugin, packed input and paged state all enabled, it is true. -/
theorem supportsInflightBatching_truth_table (c : ModelConfig LoraModule MedusaModule) :
    (c.isTransformerBased = true → c.useGptAttentionPlugin = true →
        c.usePackedInput = true → c.usePagedKvCache = true →
          c.supportsInflightBatching = true)
      ∧ (c.isTransformerBased = true → c.useGptAttentionPlugin = true →
        c.usePackedInput = true → c.usePagedKvCache = false →
        ¬ (c.isSsmBased = true ∧ c.useMambaConv1dPlugin = true ∧ c.usePagedState = true) →
          c.supportsInflightBatching = false)
      ∧ (c.isSsmBased = true → c.useMambaConv1dPlugin = true →
        c.usePackedInput = true → c.usePagedState = true →
          c.supportsInflightBatching = true) := by
  simp only [supportsInflightBatching, useGptAttentionPlugin, usePackedInput,
    usePagedKvCache, useMambaConv1dPlugin, usePagedState]
  refine ⟨fun h1 h2 h3 h4 => ?_, fun h1 h2 h3 h4 h5 => ?_, fun h1 h2 h3 h4 => ?_⟩
  · simp [h1, h2, h3, h4]
  · simp only [h1, h2, h3, h4, Bool.and_false, Bool.false_or, Bool.and_true]
    cases hs : c.isSsmBased <;> cases hm : c.mUseMambaConv1dPlugin
      <;> cases hp : c.mPagedState <;> simp_all
  · simp [h1, h2, h3, h4]

/-- Witness of C16 (as amended): the scenario descriptor (variant `kGpt`) with the
attention plugin and packed input enabled supports inflight batching with the paged KV
cache and does not without it. -/
theorem supportsInflightBatching_truth_table_witness :
    (((scenarioConfig.useGptAttentionPluginSet true).usePackedInputSet true).usePagedKvCacheSet
        true).supportsInflightBatching = true
      ∧ ((scenarioConfig.useGptAttentionPluginSet true).usePackedInputSet
        true).supportsInflightBatching = false :=
  ⟨(supportsInflightBatching_truth_table
      (((scenarioConfig.useGptAttentionPluginSet true).usePackedInputSet
        true).usePagedKvCacheSet true)).1 rfl rfl rfl rfl,
    (supportsInflightBatching_truth_table
      ((scenarioConfig.useGptAttentionPluginSet true).usePackedInputSet true)).2.1
        rfl rfl rfl rfl (by decide)⟩

/-- C16 fails as stated: the scenario descriptor switched to the variant
`kRecurrentGemma`, with the attention plugin, packed input, the mamba-conv1d plugin and
paged state enabled, is transformer-based with attention plugin and packed input enabled
and the paged KV cache disabled, yet `supportsInflightBatching()` is true. -/
theorem supportsInflightBatching_true_without_pagedKvCache :
    ∃ c0 : ModelConfig Unit Unit,
      ctor ⟨0, 0⟩ 50257 24 0 16 2048 nvinfer1.DataType.kHALF = Except.ok c0
        ∧ (((((c0.setModelVariant ModelVariant.kRecurrentGemma).useGptAttentionPluginSet
              true).usePackedInputSet true).useMambaConv1dPluginSet true).usePagedStateSet
              true).isTransformerBased = true
        ∧ (((((c0.setModelVariant ModelVariant.kRecurrentGemma).useGptAttentionPluginSet
              true).usePackedInputSet true).useMambaConv1dPluginSet true).usePagedStateSet
              true).useGptAttentionPlugin = true
        ∧ (((((c0.setModelVariant ModelVariant.kRecurrentGemma).useGptAttentionPluginSet
              true).usePackedInputSet true).useMambaConv1dPluginSet true).usePagedStateSet
              true).usePackedInput = true
        ∧ (((((c0.setModelVariant ModelVariant.kRecurrentGemma).useGptAttentionPluginSet
              true).usePackedInputSet true).useMambaConv1dPluginSet true).usePagedStateSet
              true).usePagedKvCache = false
        ∧ (((((c0.setModelVariant ModelVariant.kRecurrentGemma).useGptAttentionPluginSet
              true).usePackedInputSet true).useMambaConv1dPluginSet true).usePagedStateSet
              true).supportsInflightBatching = true :=
  ⟨scenarioConfig, rfl, rfl, rfl, rfl, rfl, rfl⟩

/-- C17: `setMambaConfig` and `setRnnConfig` store their argument and leave the variant
as it is, whatever the variant; `setModelVariant` leaves both sub-configs as they are.
So the descriptor constructed for the scenario (variant `kGpt`) gives, after
`setMambaConfig`, a descriptor that is not state-space-based and has a Mamba
configuration, and after `setRnnConfig` one that is not state-space-based and has an RNN
configuration; the same holds when the variant is set to `kGlm` after the sub-config. -/
theorem subconfig_pairing_not_enforced (c : ModelConfig LoraModule MedusaModule)
    (v : ModelVariant) (mc : MambaConfig) (rc : RnnConfig) :
    ((c.setMambaConfig mc).hasMambaConfig = true
        ∧ (c.setMambaConfig mc).getModelVariant = c.getModelVariant
        ∧ (c.setMambaConfig mc).isSsmBased = c.isSsmBased)
      ∧ ((c.setRnnConfig rc).hasRnnConfig = true
        ∧ (c.setRnnConfig rc).getModelVariant = c.getModelVariant
        ∧ (c.setRnnConfig rc).isSsmBased = c.isSsmBased)
      ∧ ((c.setModelVariant v).getModelVariant = v
        ∧ (c.setModelVariant v).getMambaConfig = c.getMambaConfig
        ∧ (c.setModelVariant v).getRnnConfig = c.getRnnConfig)
      ∧ (∃ c0 : ModelConfig LoraModule MedusaModule,
          ctor ⟨0, 0⟩ 50257 24 0 16 2048 nvinfer1.DataType.kHALF = Except.ok c0
            ∧ ((c0.setMambaConfig mc).isSsmBased = false
              ∧ (c0.setMambaConfig mc).hasMambaConfig = true)
            ∧ ((c0.setRnnConfig rc).isSsmBased = false
              ∧ (c0.setRnnConfig rc).hasRnnConfig = true)
            ∧ (((c0.setMambaConfig mc).setModelVariant ModelVariant.kGlm).isSsmBased = false
              ∧ ((c0.setMambaConfig mc).setModelVariant ModelVariant.kGlm).hasMambaConfig
                = true)
            ∧ (((c0.setRnnConfig rc).setModelVariant ModelVariant.kGlm).isSsmBased = false
              ∧ ((c0.setRnnConfig rc).setModelVariant ModelVariant.kGlm).hasRnnConfig
                = true)) :=
  ⟨⟨rfl, rfl, rfl⟩, ⟨rfl, rfl, rfl⟩, ⟨rfl, rfl, rfl⟩,
    ⟨_, (ctor_eq_ok_iff ⟨0, 0⟩ 50257 24 0 16 2048 nvinfer1.DataType.kHALF _).2
      ⟨⟨by decide, by decide⟩, rfl⟩, ⟨rfl, rfl⟩, ⟨rfl, rfl⟩, ⟨rfl, rfl⟩, ⟨rfl, rfl⟩⟩⟩

/-- C18: for every descriptor `d` and value `s`, after `setSizePerHead(s)`
`getSizePerHead()` is `s` while `getHiddenSize()`, `getNbHeads()` and `getNbKvHeads()`
are unchanged.  So the equation `getNbHeads() * getSizePerHead() = getHiddenSize()` is
not preserved: it holds on the descriptor constructed for the scenario (16 * 128 = 2048)
and fails on it after `setSizePerHead(64)`. -/
theorem setSizePerHead_overwrites_independently (d : ModelConfig LoraModule MedusaModule)
    (s : SizeType) :
    ((d.setSizePerHead s).getSizePerHead = s
        ∧ (d.setSizePerHead s).getHiddenSize = d.getHiddenSize
        ∧ (d.setSizePerHead s).getNbHeads = d.getNbHeads
        ∧ (d.setSizePerHead s).getNbKvHeads = d.getNbKvHeads)
      ∧ (∃ c0 : ModelConfig LoraModule MedusaModule,
          ctor ⟨0, 0⟩ 50257 24 0 16 2048 nvinfer1.DataType.kHALF = Except.ok c0
            ∧ c0.getNbHeads.val * c0.getSizePerHead.val = c0.getHiddenSize.val
            ∧ (c0.setSizePerHead 64).getNbHeads.val * (c0.setSizePerHead 64).getSizePerHead.val
                ≠ (c0.setSizePerHead 64).getHiddenSize.val
            ∧ (c0.setSizePerHead 64).getNbHeads * (c0.setSizePerHead 64).getSizePerHead
                ≠ (c0.setSizePerHead 64).getHiddenSize) :=
  ⟨⟨rfl, rfl, rfl, rfl⟩,
    ⟨_, (ctor_eq_ok_iff ⟨0, 0⟩ 50257 24 0 16 2048 nvinfer1.DataType.kHALF _).2
      ⟨⟨by decide, by decide⟩, rfl⟩,
      show (16 : SizeType).val * (SizeType.ofInt ((2048 : SizeType).val.tdiv
        (16 : SizeType).val)).val = (2048 : SizeType).val by decide,
      show (16 : SizeType).val * (64 : SizeType).val ≠ (2048 : SizeType).val by decide,
      show (16 : SizeType) * (64 : SizeType) ≠ (2048 : SizeType) by decide⟩⟩

end ModelConfig
end runtime
end tensorrt_llm

namespace tensorrt_llm
namespace runtime
namespace ModelConfig

variable {LoraModule MedusaModule : Type}

/-- C20: for every descriptor on which `supportsInflightBatching()` is true,
`usePackedInput()` is true; and the result is monotone in the five flags: a descriptor
with the same variant on which each of attention plugin, mamba-conv1d plugin, packed
input, paged KV cache and paged state is enabled whenever it is on the first also gives
true.  In particular setting any one of the five flags to true, which leaves the variant
as it is, never turns the result from true to false. -/
theorem supportsInflightBatching_monotone (c c' : ModelConfig LoraModule MedusaModule) :
    (c.supportsInflightBatching = true → c.usePackedInput = true)
      ∧ (c'.getModelVariant = c.getModelVariant →
          (c.useGptAttentionPlugin = true → c'.useGptAttentionPlugin = true) →
          (c.useMambaConv1dPlugin = true → c'.useMambaConv1dPlugin = true) →
          (c.usePackedInput = true → c'.usePackedInput = true) →
          (c.usePagedKvCache = true → c'.usePagedKvCache = true) →
          (c.usePagedState = true → c'.usePagedState = true) →
          c.supportsInflightBatching = true → c'.supportsInflightBatching = true)
      ∧ ((c.useGptAttentionPluginSet true).getModelVariant = c.getModelVariant
        ∧ (c.useMambaConv1dPluginSet true).getModelVariant = c.getModelVariant
        ∧ (c.usePackedInputSet true).getModelVariant = c.getModelVariant
        ∧ (c.usePagedKvCacheSet true).getModelVariant = c.getModelVariant
        ∧ (c.usePagedStateSet true).getModelVariant = c.getModelVariant)
      ∧ (c.supportsInflightBatching = true →
          (c.useGptAttentionPluginSet true).supportsInflightBatching = true
            ∧ (c.useMambaConv1dPluginSet true).supportsInflightBatching = true
            ∧ (c.usePackedInputSet true).supportsInflightBatching = true
            ∧ (c.usePagedKvCacheSet true).supportsInflightBatching = true
            ∧ (c.usePagedStateSet true).supportsInflightBatching = true) := by
  have hmono : ∀ d d' : ModelConfig LoraModule MedusaModule,
      d'.mModelVariant = d.mModelVariant →
      (d.mUseGptAttentionPlugin = true → d'.mUseGptAttentionPlugin = true) →
      (d.mUseMambaConv1dPlugin = true → d'.mUseMambaConv1dPlugin = true) →
      (d.mInputPacked = true → d'.mInputPacked = true) →
      (d.mPagedKvCache = true → d'.mPagedKvCache = true) →
      (d.mPagedState = true → d'.mPagedState = true) →
      d.supportsInflightBatching = true → d'.supportsInflightBatching = true := by
    intro d d' hv h1 h2 h3 h4 h5 h
    simp only [supportsInflightBatching, isTransformerBased, isSsmBased, hv,
      Bool.or_eq_true, Bool.and_eq_true] at h ⊢
    rcases h with ⟨⟨⟨ht, ha⟩, hp⟩, hk⟩ | ⟨⟨⟨hs, hm⟩, hp⟩, hst⟩
    · exact Or.inl ⟨⟨⟨ht, h1 ha⟩, h3 hp⟩, h4 hk⟩
    · exact Or.inr ⟨⟨⟨hs, h2 hm⟩, h3 hp⟩, h5 hst⟩
  refine ⟨fun h => ?_, hmono c c', ⟨rfl, rfl, rfl, rfl, rfl⟩, fun h => ⟨?_, ?_, ?_, ?_, ?_⟩⟩
  · simp only [supportsInflightBatching, Bool.or_eq_true, Bool.and_eq_true] at h
    rcases h with ⟨⟨_, hp⟩, _⟩ | ⟨⟨_, hp⟩, _⟩ <;> exact hp
  · exact hmono c _ rfl (fun _ => rfl) id id id id h
  · exact hmono c _ rfl id (fun _ => rfl) id id id h
  · exact hmono c _ rfl id id (fun _ => rfl) id id h
  · exact hmono c _ rfl id id id (fun _ => rfl) id h
  · exact hmono c _ rfl id id id id (fun _ => rfl) h

/-- Witness of C20: the scenario descriptor with attention plugin, packed input and
paged KV cache enabled supports inflight batching, has packed input enabled, and still
supports it after paged state is switched on as well. -/
theorem supportsInflightBatching_monotone_witness :
    (((scenarioConfig.useGptAttentionPluginSet true).usePackedInputSet true).usePagedKvCacheSet
        true).usePackedInput = true
      ∧ ((((scenarioConfig.useGptAttentionPluginSet true).usePackedInputSet
          true).usePagedKvCacheSet true).usePagedStateSet true).supportsInflightBatching
        = true :=
  ⟨(supportsInflightBatching_monotone
      (((scenarioConfig.useGptAttentionPluginSet true).usePackedInputSet
        true).usePagedKvCacheSet true) scenarioConfig).1 rfl,
    ((supportsInflightBatching_monotone
      (((scenarioConfig.useGptAttentionPluginSet true).usePackedInputSet
        true).usePagedKvCacheSet true) scenarioConfig).2.2.2 rfl).2.2.2.2⟩

end ModelConfig
end runtime
end tensorrt_llm
